import Mathlib

/-!
Verification of the shared distribution contract of the OpenTURNS
distribution library, shallowly embedded for the three concrete variants
present in the sources: Arcsine, Frechet and GeneralizedPareto.

Scalars (C++ double) are modelled as real numbers.  Where an IEEE special
value (NaN or an infinity) decides a branch in the source, the embedding
reproduces the branch actually taken by the double arithmetic and the spot
is marked by a comment.  Fallible operations (C++ throw) return Except;
an error result models a thrown exception, in which case the caller keeps
its previous state, exactly as in the source where every throw happens
before any member is assigned.
-/

namespace OTVerify

/-- The five error conditions of the library's exception taxonomy. -/
inductive Err where
  | invalidArgument
  | notDefined
  | notYetImplemented
  | convergence
  | deserialization
deriving DecidableEq

/-- A point of the input space: one scalar per dimension. -/
abbrev Point := List ℝ

/-- The numerical range of a distribution: bound vectors plus per-side
finiteness flags, as in Interval. -/
structure Interval where
  lowerBound : Point
  upperBound : Point
  finiteLowerBound : List Bool
  finiteUpperBound : List Bool

noncomputable section

/-- Modelled from the spec: the configured extreme-probability offset used by
the Range Model when a true bound is infinite (SpecFunc::Precision, not under
src/); the spec gives machine epsilon as the example value. -/
def SpecFunc.Precision : ℝ := 1e-16

/-- Modelled from the spec: the sentinel "log of zero" value returned by
logDensity when the density is exactly 0, "a very negative finite number, not
negative infinity" (SpecFunc::LogMinNumericalScalar, not under src/). -/
def SpecFunc.LogMinNumericalScalar : ℝ := -708.396418532264078749

/-- C expm1: exp x - 1. -/
def expm1 (x : ℝ) : ℝ := Real.exp x - 1

/-- C log1p: log (1 + x). -/
def log1p (x : ℝ) : ℝ := Real.log (1 + x)

/-! ### Frechet

Translated from src/lib/src/Uncertainty/Distribution/Frechet.cxx.
The state keeps the fields the claims depend on: the three parameters, the
base-class weight, the lazy mean/covariance caches with their flags, and the
range (the 1-by-1 covariance matrix is kept as a scalar). -/

structure Frechet where
  alpha_ : ℝ
  beta_ : ℝ
  gamma_ : ℝ
  weight_ : ℝ
  mean_ : Point
  isAlreadyComputedMean_ : Bool
  covariance_ : ℝ
  isAlreadyComputedCovariance_ : Bool
  range_ : Interval

/-- Frechet::computeScalarQuantile:
gamma_ + beta_ * pow(-log(tail ? 1-prob : prob), -1/alpha_). -/
def Frechet.computeScalarQuantile (d : Frechet) (prob : ℝ) (tail : Bool) : ℝ :=
  d.gamma_ + d.beta_ * (-Real.log (if tail then 1 - prob else prob)) ^ (-1 / d.alpha_)

/-- Frechet::computeRange: lower bound gamma_ (finite), upper bound infinite.
The numerical upper surrogate comes from the base-class computeUpperBound,
which is not under src/; modelled from the spec (Range Model): the quantile
at the configured extreme probability. -/
def Frechet.computeRange (d : Frechet) : Frechet :=
  { d with range_ :=
      { lowerBound := [d.gamma_]
        upperBound := [d.computeScalarQuantile (1 - SpecFunc.Precision) false]
        finiteLowerBound := [true]
        finiteUpperBound := [false] } }

/-- The Frechet parameters constructor: validates alpha > 0 and beta > 0
(through setAlpha / setBeta on the fresh object), throws InvalidArgument
otherwise, then computes the range.  The caches start unset. -/
def Frechet.create (alpha beta gamma : ℝ) : Except Err Frechet :=
  if ¬ alpha > 0 then .error .invalidArgument
  else if ¬ beta > 0 then .error .invalidArgument
  else .ok (Frechet.computeRange
    { alpha_ := alpha, beta_ := beta, gamma_ := gamma, weight_ := 1
      mean_ := [0], isAlreadyComputedMean_ := false
      covariance_ := 0, isAlreadyComputedCovariance_ := false
      range_ := { lowerBound := [0], upperBound := [0]
                  finiteLowerBound := [true], finiteUpperBound := [true] } })

/-- Frechet::computeCDF: dimension check, then 0 for x - gamma_ <= 0,
else exp(-pow((x-gamma_)/beta_, -alpha_)). -/
def Frechet.computeCDF (d : Frechet) (point : Point) : Except Err ℝ :=
  if point.length ≠ 1 then .error .invalidArgument
  else
    let x := point.headI - d.gamma_
    if x ≤ 0 then .ok 0
    else .ok (Real.exp (-((x / d.beta_) ^ (-d.alpha_))))

/-- Frechet::computeLogPDF: dimension check, then the log-zero sentinel for
x - gamma_ <= 0, else log(alpha_/beta_) + (-1-alpha_)*log(x/beta_) - pow(x/beta_, -alpha_). -/
def Frechet.computeLogPDF (d : Frechet) (point : Point) : Except Err ℝ :=
  if point.length ≠ 1 then .error .invalidArgument
  else
    let x := point.headI - d.gamma_
    if x ≤ 0 then .ok SpecFunc.LogMinNumericalScalar
    else .ok (Real.log (d.alpha_ / d.beta_) + (-1 - d.alpha_) * Real.log (x / d.beta_)
              - (x / d.beta_) ^ (-d.alpha_))

/-- Frechet::computePDF.  Unlike every sibling method in the same file, the
source performs NO dimension check here: it reads point[0] first, returns 0.0
when point[0] - gamma_ <= 0 whatever the dimension, and only reaches the check
inside computeLogPDF otherwise.  An empty point is an out-of-range access in
the source (undefined behaviour), modelled as a failure. -/
def Frechet.computePDF (d : Frechet) (point : Point) : Except Err ℝ :=
  match point with
  | x :: _ =>
      if x - d.gamma_ ≤ 0 then .ok 0
      else (d.computeLogPDF point).map Real.exp
  | [] => .error .invalidArgument

/-- Frechet::computeMean: the source throws InvalidArgumentException (with the
message "mean is not defined for alpha <= 1") when alpha_ <= 1; otherwise it
stores gamma_ + beta_ * Gamma(1 - 1/alpha_) and sets the flag. -/
def Frechet.computeMean (d : Frechet) : Except Err Frechet :=
  if ¬ d.alpha_ > 1 then .error .invalidArgument
  else .ok { d with mean_ := [d.gamma_ + d.beta_ * Real.Gamma (1 - 1 / d.alpha_)],
                    isAlreadyComputedMean_ := true }

/-- Modelled from the spec: the base-class lazy accessor mean() (not under
src/) returns the cached vector when the flag is set and otherwise calls the
variant's computeMean, which populates the cache. -/
def Frechet.getMean (d : Frechet) : Except Err (Point × Frechet) :=
  if d.isAlreadyComputedMean_ then .ok (d.mean_, d)
  else (d.computeMean).map (fun d2 => (d2.mean_, d2))

/-- Frechet::setAlpha: validates alpha > 0, and when the value changes clears
both cache flags and recomputes the range. -/
def Frechet.setAlpha (d : Frechet) (alpha : ℝ) : Except Err Frechet :=
  if ¬ alpha > 0 then .error .invalidArgument
  else if alpha ≠ d.alpha_ then
    .ok (Frechet.computeRange
      { d with alpha_ := alpha, isAlreadyComputedMean_ := false,
               isAlreadyComputedCovariance_ := false })
  else .ok d

/-- Frechet::setBeta: validates beta > 0, and when the value changes clears
both cache flags and recomputes the range. -/
def Frechet.setBeta (d : Frechet) (beta : ℝ) : Except Err Frechet :=
  if ¬ beta > 0 then .error .invalidArgument
  else if beta ≠ d.beta_ then
    .ok (Frechet.computeRange
      { d with beta_ := beta, isAlreadyComputedMean_ := false,
               isAlreadyComputedCovariance_ := false })
  else .ok d

/-- Frechet::setGamma: no validation; when the value changes clears both cache
flags and recomputes the range. -/
def Frechet.setGamma (d : Frechet) (gamma : ℝ) : Except Err Frechet :=
  if gamma ≠ d.gamma_ then
    .ok (Frechet.computeRange
      { d with gamma_ := gamma, isAlreadyComputedMean_ := false,
               isAlreadyComputedCovariance_ := false })
  else .ok d

/-- Frechet::setParameter: checks the size, constructs a whole fresh Frechet
from the tuple (so an invalid tuple throws before *this is assigned), then
restores the previously saved weight. -/
def Frechet.setParameter (d : Frechet) (parameter : Point) : Except Err Frechet :=
  if parameter.length ≠ 3 then .error .invalidArgument
  else (Frechet.create (parameter.getD 0 0) (parameter.getD 1 0) (parameter.getD 2 0)).map
    (fun f => { f with weight_ := d.weight_ })

/-- Frechet::load: the parameter attributes are read straight back into the
members with no validation, then the dimension is reset and computeRange is
called.  The base-class part (ContinuousDistribution::load, not under src/) is
modelled from the spec: it restores the attributes the base contract declares
(name, dimension, weight); the caches are not among the declared attributes,
so a freshly loaded object has both computed flags unset. -/
def Frechet.load (d : Frechet) (w alpha beta gamma : ℝ) : Frechet :=
  Frechet.computeRange
    { d with weight_ := w, alpha_ := alpha, beta_ := beta, gamma_ := gamma,
             isAlreadyComputedMean_ := false, isAlreadyComputedCovariance_ := false }

/-! ### GeneralizedPareto

Translated from src/lib/src/Uncertainty/Distribution/GeneralizedPareto.cxx. -/

structure GeneralizedPareto where
  sigma_ : ℝ
  xi_ : ℝ
  weight_ : ℝ
  mean_ : Point
  isAlreadyComputedMean_ : Bool
  covariance_ : ℝ
  isAlreadyComputedCovariance_ : Bool
  range_ : Interval

/-- GeneralizedPareto::computeScalarQuantile:
logProb = tail ? log(prob) : log1p(-prob);
xi_ = 0 gives -sigma_ * logProb, otherwise sigma_ * expm1(-xi_ * logProb) / xi_. -/
def GeneralizedPareto.computeScalarQuantile (d : GeneralizedPareto) (prob : ℝ) (tail : Bool) : ℝ :=
  let logProb := if tail then Real.log prob else log1p (-prob)
  if d.xi_ = 0 then -d.sigma_ * logProb
  else d.sigma_ * expm1 (-d.xi_ * logProb) / d.xi_

/-- GeneralizedPareto::computeRange: lower bound 0 (finite); for xi_ >= 0 the
upper bound is the infinite side's numerical surrogate, the quantile at
1 - SpecFunc::Precision; for xi_ < 0 the upper bound is -sigma_ / xi_ (finite). -/
def GeneralizedPareto.computeRange (d : GeneralizedPareto) : GeneralizedPareto :=
  { d with range_ :=
      if d.xi_ ≥ 0 then
        { lowerBound := [0]
          upperBound := [d.computeScalarQuantile (1 - SpecFunc.Precision) false]
          finiteLowerBound := [true]
          finiteUpperBound := [false] }
      else
        { lowerBound := [0]
          upperBound := [-d.sigma_ / d.xi_]
          finiteLowerBound := [true]
          finiteUpperBound := [true] } }

/-- GeneralizedPareto::setSigma: validates sigma > 0 (throws InvalidArgument),
and when the value changes clears both cache flags and recomputes the range. -/
def GeneralizedPareto.setSigma (d : GeneralizedPareto) (sigma : ℝ) : Except Err GeneralizedPareto :=
  if ¬ sigma > 0 then .error .invalidArgument
  else if sigma ≠ d.sigma_ then
    .ok (GeneralizedPareto.computeRange
      { d with sigma_ := sigma, isAlreadyComputedMean_ := false,
               isAlreadyComputedCovariance_ := false })
  else .ok d

/-- GeneralizedPareto::setXi: no validation; when the value changes clears
both cache flags and recomputes the range. -/
def GeneralizedPareto.setXi (d : GeneralizedPareto) (xi : ℝ) : Except Err GeneralizedPareto :=
  if xi ≠ d.xi_ then
    .ok (GeneralizedPareto.computeRange
      { d with xi_ := xi, isAlreadyComputedMean_ := false,
               isAlreadyComputedCovariance_ := false })
  else .ok d

/-- The GeneralizedPareto parameters constructor: initialises sigma_ to 0 and
xi_ to xi, then calls setSigma(sigma), which validates sigma > 0 and computes
the range (sigma > 0 never equals the initial 0, so the mutating branch always
runs). -/
def GeneralizedPareto.create (sigma xi : ℝ) : Except Err GeneralizedPareto :=
  GeneralizedPareto.setSigma
    { sigma_ := 0, xi_ := xi, weight_ := 1
      mean_ := [0], isAlreadyComputedMean_ := false
      covariance_ := 0, isAlreadyComputedCovariance_ := false
      range_ := { lowerBound := [0], upperBound := [0]
                  finiteLowerBound := [true], finiteUpperBound := [true] } }
    sigma

/-- GeneralizedPareto::computePDF: dimension check; z = point[0] / sigma_;
0 for z < 0; the small-argument Taylor branch when abs(z) * sqrt(abs(xi_)) < 1e-8;
0 for xi_ < 0 and z >= -1/xi_; otherwise exp(-(1 + 1/xi_) * log1p(xi_ * z)) / sigma_. -/
def GeneralizedPareto.computePDF (d : GeneralizedPareto) (point : Point) : Except Err ℝ :=
  if point.length ≠ 1 then .error .invalidArgument
  else
    let z := point.headI / d.sigma_
    if z < 0 then .ok 0
    else if |z| * Real.sqrt |d.xi_| < 1e-8 then
      .ok (Real.exp (-z) * (1 + z * d.xi_ * (0.5 * z - 1)) / d.sigma_)
    else if d.xi_ < 0 ∧ z ≥ -1 / d.xi_ then .ok 0
    else .ok (Real.exp (-(1 + 1 / d.xi_) * log1p (d.xi_ * z)) / d.sigma_)

/-- GeneralizedPareto::computeCDF: dimension check; z = point[0] / sigma_;
0 for z <= 0; the small-argument Taylor branch when abs(sqrt(xi_) * z) < 1e-8
(in the source sqrt(xi_) is NaN for xi_ < 0, making that comparison false, so
the branch is only reachable for xi_ >= 0 and the translation carries the
explicit 0 <= xi_ conjunct); 1 for xi_ < 0 and z > -1/xi_; otherwise
-expm1(-log1p(xi_ * z) / xi_).  At z exactly -1/xi_ (xi_ < 0) the source's
double arithmetic takes the last branch through log1p(-1) = -infinity and
yields 1; real-valued log has no value there and no theorem below evaluates
that point. -/
def GeneralizedPareto.computeCDF (d : GeneralizedPareto) (point : Point) : Except Err ℝ :=
  if point.length ≠ 1 then .error .invalidArgument
  else
    let z := point.headI / d.sigma_
    if z ≤ 0 then .ok 0
    else if 0 ≤ d.xi_ ∧ |Real.sqrt d.xi_ * z| < 1e-8 then
      .ok (-expm1 (-z) - 0.5 * d.xi_ * z * z * Real.exp (-z))
    else if d.xi_ < 0 ∧ z > -1 / d.xi_ then .ok 1
    else .ok (-expm1 (-log1p (d.xi_ * z) / d.xi_))

/-- GeneralizedPareto::computeMean: throws NotDefinedException unless xi_ < 1;
otherwise stores sigma_ / (1 - xi_) and sets the flag. -/
def GeneralizedPareto.computeMean (d : GeneralizedPareto) : Except Err GeneralizedPareto :=
  if ¬ d.xi_ < 1 then .error .notDefined
  else .ok { d with mean_ := [d.sigma_ / (1 - d.xi_)], isAlreadyComputedMean_ := true }

/-- Modelled from the spec: the base-class lazy accessor mean() (not under
src/), as for Frechet. -/
def GeneralizedPareto.getMean (d : GeneralizedPareto) : Except Err (Point × GeneralizedPareto) :=
  if d.isAlreadyComputedMean_ then .ok (d.mean_, d)
  else (d.computeMean).map (fun d2 => (d2.mean_, d2))

/-- GeneralizedPareto::setParameter: checks the size, constructs a whole fresh
object from the tuple (an invalid tuple throws before *this is assigned), then
restores the previously saved weight. -/
def GeneralizedPareto.setParameter (d : GeneralizedPareto) (parameter : Point) :
    Except Err GeneralizedPareto :=
  if parameter.length ≠ 2 then .error .invalidArgument
  else (GeneralizedPareto.create (parameter.getD 0 0) (parameter.getD 1 0)).map
    (fun f => { f with weight_ := d.weight_ })

/-- GeneralizedPareto::load: the parameter attributes are read straight back
into the members with no validation, then computeRange is called.  The
base-class part is modelled from the spec as for Frechet.load. -/
def GeneralizedPareto.load (d : GeneralizedPareto) (w sigma xi : ℝ) : GeneralizedPareto :=
  GeneralizedPareto.computeRange
    { d with weight_ := w, sigma_ := sigma, xi_ := xi,
             isAlreadyComputedMean_ := false, isAlreadyComputedCovariance_ := false }

/-! ### Arcsine

Translated from the Arcsine implementation file (src/unnamed/part_001). -/

structure Arcsine where
  a_ : ℝ
  b_ : ℝ
  weight_ : ℝ
  mean_ : Point
  isAlreadyComputedMean_ : Bool
  covariance_ : ℝ
  isAlreadyComputedCovariance_ : Bool
  range_ : Interval

/-- Arcsine::computeRange: setRange(Interval(a_, b_)), both bounds finite. -/
def Arcsine.computeRange (d : Arcsine) : Arcsine :=
  { d with range_ :=
      { lowerBound := [d.a_], upperBound := [d.b_]
        finiteLowerBound := [true], finiteUpperBound := [true] } }

/-- The Arcsine parameters constructor: throws InvalidArgument unless a < b,
then computes the range.  The caches start unset. -/
def Arcsine.create (a b : ℝ) : Except Err Arcsine :=
  if ¬ a < b then .error .invalidArgument
  else .ok (Arcsine.computeRange
    { a_ := a, b_ := b, weight_ := 1
      mean_ := [0], isAlreadyComputedMean_ := false
      covariance_ := 0, isAlreadyComputedCovariance_ := false
      range_ := { lowerBound := [0], upperBound := [0]
                  finiteLowerBound := [true], finiteUpperBound := [true] } })

/-- Arcsine::computeScalarQuantile:
0.5*(b_-a_)*sin(pi*(proba - 0.5)) + 0.5*(a_+b_) with proba = tail ? 1-prob : prob. -/
def Arcsine.computeScalarQuantile (d : Arcsine) (prob : ℝ) (tail : Bool) : ℝ :=
  let proba := if tail then 1 - prob else prob
  0.5 * (d.b_ - d.a_) * Real.sin (Real.pi * (proba - 0.5)) + 0.5 * (d.a_ + d.b_)

/-- Arcsine::computeLogPDF: dimension check; the log-zero sentinel for
x <= a_ or x >= b_; otherwise -log(pi) - 0.5*(log(b_-x) + log(x-a_)). -/
def Arcsine.computeLogPDF (d : Arcsine) (point : Point) : Except Err ℝ :=
  if point.length ≠ 1 then .error .invalidArgument
  else
    let x := point.headI
    if x ≤ d.a_ ∨ x ≥ d.b_ then .ok SpecFunc.LogMinNumericalScalar
    else .ok (-Real.log Real.pi - 0.5 * (Real.log (d.b_ - x) + Real.log (x - d.a_)))

/-- Arcsine::computePDF: dimension check; 0 for x <= a_ or x >= b_;
otherwise exp(computeLogPDF(point)). -/
def Arcsine.computePDF (d : Arcsine) (point : Point) : Except Err ℝ :=
  if point.length ≠ 1 then .error .invalidArgument
  else
    let x := point.headI
    if x ≤ d.a_ ∨ x ≥ d.b_ then .ok 0
    else (d.computeLogPDF point).map Real.exp

/-- Arcsine::computeCDF: dimension check; 0 for x <= a_; 1 for x >= b_;
otherwise 0.5 + asin((x - 0.5*(a_+b_)) / (0.5*(b_-a_))) / pi. -/
def Arcsine.computeCDF (d : Arcsine) (point : Point) : Except Err ℝ :=
  if point.length ≠ 1 then .error .invalidArgument
  else
    let x := point.headI
    if x ≤ d.a_ then .ok 0
    else if x ≥ d.b_ then .ok 1
    else .ok (0.5 + Real.arcsin ((x - 0.5 * (d.a_ + d.b_)) / (0.5 * (d.b_ - d.a_))) / Real.pi)

/-- Arcsine::computeMean: always defined: stores 0.5*(a_+b_) and sets the flag. -/
def Arcsine.computeMean (d : Arcsine) : Except Err Arcsine :=
  .ok { d with mean_ := [0.5 * (d.a_ + d.b_)], isAlreadyComputedMean_ := true }

/-- Modelled from the spec: the base-class lazy accessor mean() (not under
src/), as for Frechet. -/
def Arcsine.getMean (d : Arcsine) : Except Err (Point × Arcsine) :=
  if d.isAlreadyComputedMean_ then .ok (d.mean_, d)
  else (d.computeMean).map (fun d2 => (d2.mean_, d2))

/-- Arcsine::setA: throws InvalidArgument when a >= b_; when the value changes
clears both cache flags and recomputes the range. -/
def Arcsine.setA (d : Arcsine) (a : ℝ) : Except Err Arcsine :=
  if a ≥ d.b_ then .error .invalidArgument
  else if a ≠ d.a_ then
    .ok (Arcsine.computeRange
      { d with a_ := a, isAlreadyComputedMean_ := false,
               isAlreadyComputedCovariance_ := false })
  else .ok d

/-- Arcsine::setB: throws InvalidArgument when a_ >= b; when the value changes
clears both cache flags and recomputes the range. -/
def Arcsine.setB (d : Arcsine) (b : ℝ) : Except Err Arcsine :=
  if d.a_ ≥ b then .error .invalidArgument
  else if b ≠ d.b_ then
    .ok (Arcsine.computeRange
      { d with b_ := b, isAlreadyComputedMean_ := false,
               isAlreadyComputedCovariance_ := false })
  else .ok d

/-- Arcsine::setParameter: checks the size, constructs a whole fresh Arcsine
from the tuple (an invalid tuple throws before *this is assigned), then
restores the previously saved weight. -/
def Arcsine.setParameter (d : Arcsine) (parameter : Point) : Except Err Arcsine :=
  if parameter.length ≠ 2 then .error .invalidArgument
  else (Arcsine.create (parameter.getD 0 0) (parameter.getD 1 0)).map
    (fun f => { f with weight_ := d.weight_ })

/-- Arcsine::load: the parameter attributes are read straight back into the
members with no validation, then computeRange is called.  The base-class part
is modelled from the spec as for Frechet.load. -/
def Arcsine.load (d : Arcsine) (w a b : ℝ) : Arcsine :=
  Arcsine.computeRange
    { d with weight_ := w, a_ := a, b_ := b,
             isAlreadyComputedMean_ := false, isAlreadyComputedCovariance_ := false }

/-- Modelled from the spec: the base-class quantile() of a 1-D variant wraps
the variant's computeScalarQuantile result into a one-component point. -/
def Arcsine.quantile (d : Arcsine) (prob : ℝ) : Point :=
  [d.computeScalarQuantile prob false]

end

/-- Claim C9: for the Arcsine distribution with a = -1, b = 1, the density at
the point 0 is exactly 1/pi, the cumulative probability at 0 is exactly 0.5,
and the quantile at probability 0.5 is exactly the point 0. -/
theorem arcsine_standard_values :
    (Arcsine.create (-1) 1).bind (fun d => d.computePDF [0]) = .ok (1 / Real.pi) ∧
    (Arcsine.create (-1) 1).bind (fun d => d.computeCDF [0]) = .ok (1 / 2) ∧
    (Arcsine.create (-1) 1).map (fun d => d.quantile (1 / 2)) = .ok [0] := by
  refine ⟨?_, ?_, ?_⟩
  · simp only [Arcsine.create, Arcsine.computeRange, Arcsine.computePDF, Arcsine.computeLogPDF]
    norm_num [Except.bind, Except.map, Real.exp_add, Real.exp_neg, Real.exp_log Real.pi_pos]
  · simp only [Arcsine.create, Arcsine.computeRange, Arcsine.computeCDF]
    norm_num [Except.bind, Real.arcsin_zero]
  · simp only [Arcsine.create, Arcsine.computeRange, Arcsine.quantile,
      Arcsine.computeScalarQuantile]
    norm_num [Except.map]

/-- Claim C1 (code evidence): for Frechet with alpha = 0.5, beta = 1, gamma = 0
the lazy accessor mean() propagates the InvalidArgument condition thrown by
Frechet::computeMean for alpha <= 1, not the NotDefined condition the claim
requires, although the source's own message reads "mean is not defined for
alpha <= 1" and GeneralizedPareto::computeMean throws NotDefined in the
analogous situation. -/
theorem frechet_mean_alpha_le_one_raises_invalidArgument :
    (Frechet.create 0.5 1 0).bind Frechet.getMean = .error .invalidArgument ∧
    Err.invalidArgument ≠ Err.notDefined := by
  constructor
  · norm_num [Frechet.create, Frechet.computeRange, Frechet.getMean, Frechet.computeMean,
      Except.bind, Except.map]
  · decide

/-- Claim C2 (code evidence): Frechet::computePDF applied to the 2-dimensional
point (-1, 5) (distribution alpha = 1, beta = 1, gamma = 0) returns the value
0 instead of failing with InvalidArgument: the source reads point[0] before
any dimension check and returns 0.0 as soon as point[0] - gamma_ <= 0. -/
theorem frechet_pdf_skips_dimension_check :
    (Frechet.create 1 1 0).bind (fun d => d.computePDF [-1, 5]) = .ok 0 ∧
    ([-1, 5] : Point).length ≠ 1 := by
  constructor
  · simp only [Frechet.create, Frechet.computeRange, Frechet.computePDF]
    norm_num [Except.bind]
  · simp

/-- Claim C3 (code evidence): for GeneralizedPareto with sigma = 1 and
xi = -10^18 the range is the finite interval from 0 to 10^(-18), yet the
density at the point 2 * 10^(-18), strictly above the upper bound, is the
strictly positive value exp(-2*10^(-18)) * (3 - 2*10^(-18)) (close to 3), not
0: the small-argument Taylor branch fires because
abs(z) * sqrt(abs(xi_)) = 2*10^(-9) < 10^(-8), before the out-of-range test. -/
theorem gpd_pdf_positive_outside_range :
    (GeneralizedPareto.create 1 (-(10:ℝ)^18)).bind
        (fun d => d.computePDF [2 / 10 ^ 18]) =
      .ok (Real.exp (-(2 / 10 ^ 18)) * (3 - 2 / 10 ^ 18)) ∧
    0 < Real.exp (-(2 / 10 ^ 18) : ℝ) * (3 - 2 / 10 ^ 18) ∧
    (GeneralizedPareto.create 1 (-(10:ℝ)^18)).map (fun d => d.range_.upperBound) =
      .ok [1 / 10 ^ 18] ∧
    (GeneralizedPareto.create 1 (-(10:ℝ)^18)).map (fun d => d.range_.finiteUpperBound) =
      .ok [true] ∧
    (1 / 10 ^ 18 : ℝ) < 2 / 10 ^ 18 := by
  have hsqrt : Real.sqrt (1000000000000000000 : ℝ) = 1000000000 := by
    rw [show (1000000000000000000:ℝ) = (1000000000:ℝ)^2 by norm_num]
    exact Real.sqrt_sq (by positivity)
  refine ⟨?_, ?_, ?_, ?_, by norm_num⟩
  · simp only [GeneralizedPareto.create, GeneralizedPareto.setSigma,
      GeneralizedPareto.computeRange, GeneralizedPareto.computePDF]
    norm_num [Except.bind, hsqrt]
    rw [abs_of_pos (show (0:ℝ) < 1 / 500000000000000000 by norm_num)]
    norm_num
  · have h3 : (0:ℝ) < 3 - 2 / 10 ^ 18 := by norm_num
    exact mul_pos (Real.exp_pos _) h3
  · simp only [GeneralizedPareto.create, GeneralizedPareto.setSigma,
      GeneralizedPareto.computeRange]
    norm_num [Except.map]
  · simp only [GeneralizedPareto.create, GeneralizedPareto.setSigma,
      GeneralizedPareto.computeRange]
    norm_num [Except.map]

/-- Claim C7 (code evidence): for GeneralizedPareto with sigma = 1 and
xi = 10^20 the cumulative probability at the point 10^(-19) is
1 - exp(-10^(-19)) * (1 + 5*10^(-19)), a strictly negative number, while the
cumulative probability at 0 is 0: the value leaves [0,1] and the function
decreases between 0 and 10^(-19), again because the small-argument Taylor
branch fires (sqrt(xi_) * z = 10^(-9) < 10^(-8)). -/
theorem gpd_cdf_negative_and_decreasing :
    (GeneralizedPareto.create 1 ((10:ℝ)^20)).bind
        (fun d => d.computeCDF [1 / 10 ^ 19]) =
      .ok (1 - Real.exp (-(1 / 10 ^ 19)) * (1 + 5 / 10 ^ 19)) ∧
    1 - Real.exp (-(1 / 10 ^ 19) : ℝ) * (1 + 5 / 10 ^ 19) < 0 ∧
    (GeneralizedPareto.create 1 ((10:ℝ)^20)).bind
        (fun d => d.computeCDF [0]) = .ok 0 ∧
    (0:ℝ) < 1 / 10 ^ 19 := by
  have hsqrt : Real.sqrt (100000000000000000000 : ℝ) = 10000000000 := by
    rw [show (100000000000000000000:ℝ) = (10000000000:ℝ)^2 by norm_num]
    exact Real.sqrt_sq (by positivity)
  refine ⟨?_, ?_, ?_, by norm_num⟩
  · simp only [GeneralizedPareto.create, GeneralizedPareto.setSigma,
      GeneralizedPareto.computeRange, GeneralizedPareto.computeCDF, expm1]
    norm_num [Except.bind, hsqrt]
    rw [abs_of_pos (show (0:ℝ) < 1 / 1000000000 by norm_num)]
    norm_num
    ring
  · have hb := Real.exp_bound' (x := (1 / 10 ^ 19 : ℝ)) (by norm_num) (by norm_num)
      (n := 2) (by norm_num)
    have h2 : Real.exp (1 / 10 ^ 19 : ℝ) < 1 + 5 / 10 ^ 19 := by
      refine lt_of_le_of_lt hb ?_
      norm_num [Finset.sum_range_succ]
    have h4 : (1:ℝ) < Real.exp (-(1 / 10 ^ 19)) * (1 + 5 / 10 ^ 19) := by
      have h5 : Real.exp (-(1 / 10 ^ 19) : ℝ) * Real.exp (1 / 10 ^ 19 : ℝ) = 1 := by
        rw [← Real.exp_add]; norm_num
      calc (1:ℝ) = Real.exp (-(1 / 10 ^ 19)) * Real.exp (1 / 10 ^ 19) := h5.symm
        _ < Real.exp (-(1 / 10 ^ 19)) * (1 + 5 / 10 ^ 19) :=
            mul_lt_mul_of_pos_left h2 (Real.exp_pos _)
    linarith
  · simp only [GeneralizedPareto.create, GeneralizedPareto.setSigma,
      GeneralizedPareto.computeRange, GeneralizedPareto.computeCDF]
    norm_num [Except.bind]

/-- Claim C10: for every variant, a successful setParameter replaces the whole
underlying object by a freshly constructed one but restores the saved weight,
so the weight field is unchanged. -/
theorem setParameter_preserves_weight :
    (∀ (d d2 : Frechet) (p : Point),
        Frechet.setParameter d p = .ok d2 → d2.weight_ = d.weight_) ∧
    (∀ (d d2 : GeneralizedPareto) (p : Point),
        GeneralizedPareto.setParameter d p = .ok d2 → d2.weight_ = d.weight_) ∧
    (∀ (d d2 : Arcsine) (p : Point),
        Arcsine.setParameter d p = .ok d2 → d2.weight_ = d.weight_) := by
  refine ⟨?_, ?_, ?_⟩
  · intro d d2 p h
    simp only [Frechet.setParameter] at h
    by_cases hl : p.length ≠ 3
    · rw [if_pos hl] at h; exact absurd h (by simp)
    · rw [if_neg hl] at h
      cases hc : Frechet.create (p.getD 0 0) (p.getD 1 0) (p.getD 2 0) with
      | error e0 => rw [hc] at h; exact absurd h (by simp [Except.map])
      | ok f =>
          rw [hc] at h
          simp only [Except.map, Except.ok.injEq] at h
          rw [← h]
  · intro d d2 p h
    simp only [GeneralizedPareto.setParameter] at h
    by_cases hl : p.length ≠ 2
    · rw [if_pos hl] at h; exact absurd h (by simp)
    · rw [if_neg hl] at h
      cases hc : GeneralizedPareto.create (p.getD 0 0) (p.getD 1 0) with
      | error e0 => rw [hc] at h; exact absurd h (by simp [Except.map])
      | ok f =>
          rw [hc] at h
          simp only [Except.map, Except.ok.injEq] at h
          rw [← h]
  · intro d d2 p h
    simp only [Arcsine.setParameter] at h
    by_cases hl : p.length ≠ 2
    · rw [if_pos hl] at h; exact absurd h (by simp)
    · rw [if_neg hl] at h
      cases hc : Arcsine.create (p.getD 0 0) (p.getD 1 0) with
      | error e0 => rw [hc] at h; exact absurd h (by simp [Except.map])
      | ok f =>
          rw [hc] at h
          simp only [Except.map, Except.ok.injEq] at h
          rw [← h]

/-- Witness for the weight-preservation theorem: an Arcsine with weight 7
keeps weight 7 across setParameter([-3, 4]). -/
theorem setParameter_preserves_weight_witness :
    ({ a_ := -3, b_ := 4, weight_ := 7, mean_ := [0], isAlreadyComputedMean_ := false,
       covariance_ := 0, isAlreadyComputedCovariance_ := false,
       range_ := { lowerBound := [-3], upperBound := [4]
                   finiteLowerBound := [true], finiteUpperBound := [true] } } : Arcsine).weight_ =
    ({ a_ := -1, b_ := 1, weight_ := 7, mean_ := [0], isAlreadyComputedMean_ := false,
       covariance_ := 0, isAlreadyComputedCovariance_ := false,
       range_ := { lowerBound := [-1], upperBound := [1]
                   finiteLowerBound := [true], finiteUpperBound := [true] } } : Arcsine).weight_ :=
  setParameter_preserves_weight.2.2 _ _ [-3, 4]
    (by norm_num [Arcsine.setParameter, Arcsine.create, Arcsine.computeRange, Except.map])

/-- Claim C6: setParameter validates the full tuple atomically: a tuple with
any invalid component (wrong size, non-positive Frechet alpha or beta,
Arcsine a >= b, non-positive GeneralizedPareto sigma) makes it fail with
InvalidArgument.  In the embedding, as in the source, the failure happens
inside the construction of the fresh temporary object, before anything is
assigned to the distribution, so the prior state is kept whole. -/
theorem setParameter_rejects_invalid_tuple :
    (∀ (d : Frechet) (a b c : ℝ), ¬ (0 < a ∧ 0 < b) →
        Frechet.setParameter d [a, b, c] = .error .invalidArgument) ∧
    (∀ (d : Frechet) (p : Point), p.length ≠ 3 →
        Frechet.setParameter d p = .error .invalidArgument) ∧
    (∀ (d : Arcsine) (a b : ℝ), ¬ a < b →
        Arcsine.setParameter d [a, b] = .error .invalidArgument) ∧
    (∀ (d : GeneralizedPareto) (s x : ℝ), ¬ 0 < s →
        GeneralizedPareto.setParameter d [s, x] = .error .invalidArgument) := by
  refine ⟨?_, ?_, ?_, ?_⟩
  · intro d a b c hab
    simp only [Frechet.setParameter, Frechet.create]
    by_cases ha : a > 0
    · have hb : ¬ b > 0 := fun hb => hab ⟨ha, hb⟩
      simp [ha, hb, Except.map]
    · simp [ha, Except.map]
  · intro d p hp
    simp [Frechet.setParameter, hp]
  · intro d a b hab
    simp only [Arcsine.setParameter, Arcsine.create]
    simp [hab, Except.map]
  · intro d s x hs
    simp only [GeneralizedPareto.setParameter, GeneralizedPareto.create,
      GeneralizedPareto.setSigma]
    simp [hs, Except.map]

/-- Witness for the atomic-rejection theorem: a Frechet tuple with a valid
alpha but non-positive beta is rejected with InvalidArgument. -/
theorem setParameter_rejects_invalid_tuple_witness :
    Frechet.setParameter
      { alpha_ := 1, beta_ := 1, gamma_ := 0, weight_ := 1, mean_ := [0],
        isAlreadyComputedMean_ := false, covariance_ := 0,
        isAlreadyComputedCovariance_ := false,
        range_ := { lowerBound := [0], upperBound := [0]
                    finiteLowerBound := [true], finiteUpperBound := [true] } }
      [1, -1, 0] = .error .invalidArgument :=
  setParameter_rejects_invalid_tuple.1 _ 1 (-1) 0 (by norm_num)

/-- Claim C8 (counterexample): a persisted Frechet record carrying alpha = -1
is loaded without any failure, producing an instance whose alpha is the
invalid value -1, while the constructor validation rejects those very same
parameter values with InvalidArgument; load (Frechet.cxx:355) re-runs no
validation, so no Deserialization condition is raised for an out-of-domain
stored value. -/
theorem frechet_load_accepts_invalid_alpha :
    (Frechet.load
        { alpha_ := 1, beta_ := 1, gamma_ := 0, weight_ := 1, mean_ := [0],
          isAlreadyComputedMean_ := false, covariance_ := 0,
          isAlreadyComputedCovariance_ := false,
          range_ := { lowerBound := [0], upperBound := [0]
                      finiteLowerBound := [true], finiteUpperBound := [true] } }
        1 (-1) 1 0).alpha_ = -1 ∧
    Frechet.create (-1) 1 0 = .error .invalidArgument := by
  constructor
  · rfl
  · norm_num [Frechet.create]

/-- Claim C8 (amended): load restores the stored attribute values verbatim
(weight from the base part, the parameters from the variant part) and
recomputes the Range, which then agrees with the range of a freshly
constructed instance with the same parameters; no parameter validation is
re-run. -/
theorem load_restores_fields_and_range :
    (∀ (d f : Frechet) (w a b c : ℝ), Frechet.create a b c = .ok f →
        (Frechet.load d w a b c).alpha_ = a ∧ (Frechet.load d w a b c).beta_ = b ∧
        (Frechet.load d w a b c).gamma_ = c ∧ (Frechet.load d w a b c).weight_ = w ∧
        (Frechet.load d w a b c).range_ = f.range_) ∧
    (∀ (d f : GeneralizedPareto) (w s x : ℝ), GeneralizedPareto.create s x = .ok f →
        (GeneralizedPareto.load d w s x).sigma_ = s ∧
        (GeneralizedPareto.load d w s x).xi_ = x ∧
        (GeneralizedPareto.load d w s x).weight_ = w ∧
        (GeneralizedPareto.load d w s x).range_ = f.range_) ∧
    (∀ (d f : Arcsine) (w a b : ℝ), Arcsine.create a b = .ok f →
        (Arcsine.load d w a b).a_ = a ∧ (Arcsine.load d w a b).b_ = b ∧
        (Arcsine.load d w a b).weight_ = w ∧
        (Arcsine.load d w a b).range_ = f.range_) := by
  refine ⟨?_, ?_, ?_⟩
  · intro d f w a b c hf
    simp only [Frechet.create] at hf
    by_cases ha : a > 0
    · by_cases hb : b > 0
      · rw [if_neg (not_not_intro ha), if_neg (not_not_intro hb)] at hf
        have hf2 := Except.ok.inj hf
        refine ⟨rfl, rfl, rfl, rfl, ?_⟩
        rw [← hf2]
        rfl
      · rw [if_neg (not_not_intro ha), if_pos hb] at hf
        exact absurd hf (by simp)
    · rw [if_pos ha] at hf
      exact absurd hf (by simp)
  · intro d f w s x hf
    simp only [GeneralizedPareto.create, GeneralizedPareto.setSigma] at hf
    by_cases hs : s > 0
    · have hs0 : s ≠ 0 := ne_of_gt hs
      rw [if_neg (not_not_intro hs), if_pos hs0] at hf
      have hf2 := Except.ok.inj hf
      refine ⟨rfl, rfl, rfl, ?_⟩
      rw [← hf2]
      rfl
    · rw [if_pos hs] at hf
      exact absurd hf (by simp)
  · intro d f w a b hf
    simp only [Arcsine.create] at hf
    by_cases hab : a < b
    · rw [if_neg (not_not_intro hab)] at hf
      have hf2 := Except.ok.inj hf
      refine ⟨rfl, rfl, rfl, ?_⟩
      rw [← hf2]
      rfl
    · rw [if_pos hab] at hf
      exact absurd hf (by simp)

/-- Witness for the amended load theorem: loading an Arcsine record with
weight 4 and bounds (-2, 5) into an unrelated instance restores exactly those
values and the range [-2, 5]. -/
theorem load_restores_fields_and_range_witness :
    (Arcsine.load
        { a_ := -1, b_ := 1, weight_ := 9, mean_ := [0], isAlreadyComputedMean_ := true,
          covariance_ := 0, isAlreadyComputedCovariance_ := true,
          range_ := { lowerBound := [-1], upperBound := [1]
                      finiteLowerBound := [true], finiteUpperBound := [true] } }
        4 (-2) 5).a_ = -2 ∧
    (Arcsine.load
        { a_ := -1, b_ := 1, weight_ := 9, mean_ := [0], isAlreadyComputedMean_ := true,
          covariance_ := 0, isAlreadyComputedCovariance_ := true,
          range_ := { lowerBound := [-1], upperBound := [1]
                      finiteLowerBound := [true], finiteUpperBound := [true] } }
        4 (-2) 5).b_ = 5 ∧
    (Arcsine.load
        { a_ := -1, b_ := 1, weight_ := 9, mean_ := [0], isAlreadyComputedMean_ := true,
          covariance_ := 0, isAlreadyComputedCovariance_ := true,
          range_ := { lowerBound := [-1], upperBound := [1]
                      finiteLowerBound := [true], finiteUpperBound := [true] } }
        4 (-2) 5).weight_ = 4 ∧
    (Arcsine.load
        { a_ := -1, b_ := 1, weight_ := 9, mean_ := [0], isAlreadyComputedMean_ := true,
          covariance_ := 0, isAlreadyComputedCovariance_ := true,
          range_ := { lowerBound := [-1], upperBound := [1]
                      finiteLowerBound := [true], finiteUpperBound := [true] } }
        4 (-2) 5).range_ =
      ({ a_ := -2, b_ := 5, weight_ := 1, mean_ := [0], isAlreadyComputedMean_ := false,
         covariance_ := 0, isAlreadyComputedCovariance_ := false,
         range_ := { lowerBound := [-2], upperBound := [5]
                     finiteLowerBound := [true], finiteUpperBound := [true] } } : Arcsine).range_ := by
  have hcreate : Arcsine.create (-2) 5 = .ok
      { a_ := -2, b_ := 5, weight_ := 1, mean_ := [0], isAlreadyComputedMean_ := false,
        covariance_ := 0, isAlreadyComputedCovariance_ := false,
        range_ := { lowerBound := [-2], upperBound := [5]
                    finiteLowerBound := [true], finiteUpperBound := [true] } } := by
    norm_num [Arcsine.create, Arcsine.computeRange]
  exact load_restores_fields_and_range.2.2 _ _ 4 (-2) 5 hcreate

/-- Claim C5: every public setter that changes a parameter value clears both
cache flags and recomputes the range immediately, so that the resulting state
has the same range as a freshly constructed instance with the new parameters
and a subsequent mean() call returns exactly what it would return on that
fresh instance, never a stale cached value.  (The lazy accessor mean() is the
base-class wrapper modelled from the spec.) -/
theorem setters_invalidate_caches :
    (∀ (d f : Frechet) (v : ℝ) (d2 : Frechet),
        Frechet.setAlpha d v = .ok d2 → v ≠ d.alpha_ →
        Frechet.create v d.beta_ d.gamma_ = .ok f →
        d2.isAlreadyComputedMean_ = false ∧ d2.isAlreadyComputedCovariance_ = false ∧
        d2.range_ = f.range_ ∧
        (Frechet.getMean d2).map Prod.fst = (Frechet.getMean f).map Prod.fst) ∧
    (∀ (d f : Frechet) (v : ℝ) (d2 : Frechet),
        Frechet.setBeta d v = .ok d2 → v ≠ d.beta_ →
        Frechet.create d.alpha_ v d.gamma_ = .ok f →
        d2.isAlreadyComputedMean_ = false ∧ d2.isAlreadyComputedCovariance_ = false ∧
        d2.range_ = f.range_ ∧
        (Frechet.getMean d2).map Prod.fst = (Frechet.getMean f).map Prod.fst) ∧
    (∀ (d f : Frechet) (v : ℝ) (d2 : Frechet),
        Frechet.setGamma d v = .ok d2 → v ≠ d.gamma_ →
        Frechet.create d.alpha_ d.beta_ v = .ok f →
        d2.isAlreadyComputedMean_ = false ∧ d2.isAlreadyComputedCovariance_ = false ∧
        d2.range_ = f.range_ ∧
        (Frechet.getMean d2).map Prod.fst = (Frechet.getMean f).map Prod.fst) ∧
    (∀ (d f : Frechet) (a b c : ℝ) (d2 : Frechet),
        Frechet.setParameter d [a, b, c] = .ok d2 →
        Frechet.create a b c = .ok f →
        d2.isAlreadyComputedMean_ = false ∧ d2.isAlreadyComputedCovariance_ = false ∧
        d2.range_ = f.range_ ∧
        (Frechet.getMean d2).map Prod.fst = (Frechet.getMean f).map Prod.fst) ∧
    (∀ (d f : GeneralizedPareto) (v : ℝ) (d2 : GeneralizedPareto),
        GeneralizedPareto.setSigma d v = .ok d2 → v ≠ d.sigma_ →
        GeneralizedPareto.create v d.xi_ = .ok f →
        d2.isAlreadyComputedMean_ = false ∧ d2.isAlreadyComputedCovariance_ = false ∧
        d2.range_ = f.range_ ∧
        (GeneralizedPareto.getMean d2).map Prod.fst = (GeneralizedPareto.getMean f).map Prod.fst) ∧
    (∀ (d f : GeneralizedPareto) (v : ℝ) (d2 : GeneralizedPareto),
        GeneralizedPareto.setXi d v = .ok d2 → v ≠ d.xi_ → 0 < d.sigma_ →
        GeneralizedPareto.create d.sigma_ v = .ok f →
        d2.isAlreadyComputedMean_ = false ∧ d2.isAlreadyComputedCovariance_ = false ∧
        d2.range_ = f.range_ ∧
        (GeneralizedPareto.getMean d2).map Prod.fst = (GeneralizedPareto.getMean f).map Prod.fst) ∧
    (∀ (d f : GeneralizedPareto) (s x : ℝ) (d2 : GeneralizedPareto),
        GeneralizedPareto.setParameter d [s, x] = .ok d2 →
        GeneralizedPareto.create s x = .ok f →
        d2.isAlreadyComputedMean_ = false ∧ d2.isAlreadyComputedCovariance_ = false ∧
        d2.range_ = f.range_ ∧
        (GeneralizedPareto.getMean d2).map Prod.fst = (GeneralizedPareto.getMean f).map Prod.fst) ∧
    (∀ (d f : Arcsine) (v : ℝ) (d2 : Arcsine),
        Arcsine.setA d v = .ok d2 → v ≠ d.a_ →
        Arcsine.create v d.b_ = .ok f →
        d2.isAlreadyComputedMean_ = false ∧ d2.isAlreadyComputedCovariance_ = false ∧
        d2.range_ = f.range_ ∧
        (Arcsine.getMean d2).map Prod.fst = (Arcsine.getMean f).map Prod.fst) ∧
    (∀ (d f : Arcsine) (v : ℝ) (d2 : Arcsine),
        Arcsine.setB d v = .ok d2 → v ≠ d.b_ →
        Arcsine.create d.a_ v = .ok f →
        d2.isAlreadyComputedMean_ = false ∧ d2.isAlreadyComputedCovariance_ = false ∧
        d2.range_ = f.range_ ∧
        (Arcsine.getMean d2).map Prod.fst = (Arcsine.getMean f).map Prod.fst) ∧
    (∀ (d f : Arcsine) (a b : ℝ) (d2 : Arcsine),
        Arcsine.setParameter d [a, b] = .ok d2 →
        Arcsine.create a b = .ok f →
        d2.isAlreadyComputedMean_ = false ∧ d2.isAlreadyComputedCovariance_ = false ∧
        d2.range_ = f.range_ ∧
        (Arcsine.getMean d2).map Prod.fst = (Arcsine.getMean f).map Prod.fst) := by
  refine ⟨?_, ?_, ?_, ?_, ?_, ?_, ?_, ?_, ?_, ?_⟩
  · -- Frechet.setAlpha
    intro d f v d2 hset hne hf
    simp only [Frechet.setAlpha] at hset
    by_cases hv : v > 0
    · rw [if_neg (not_not_intro hv), if_pos hne] at hset
      have h2 := Except.ok.inj hset
      simp only [Frechet.create] at hf
      by_cases hb : d.beta_ > 0
      · rw [if_neg (not_not_intro hv), if_neg (not_not_intro hb)] at hf
        have h3 := Except.ok.inj hf
        subst h2; subst h3
        refine ⟨rfl, rfl, rfl, ?_⟩
        by_cases h1 : v ≤ 1 <;>
          simp [Frechet.getMean, Frechet.computeMean, Frechet.computeRange, h1, Except.map]
      · rw [if_neg (not_not_intro hv), if_pos hb] at hf
        exact absurd hf (by simp)
    · rw [if_pos hv] at hset
      exact absurd hset (by simp)
  · -- Frechet.setBeta
    intro d f v d2 hset hne hf
    simp only [Frechet.setBeta] at hset
    by_cases hv : v > 0
    · rw [if_neg (not_not_intro hv), if_pos hne] at hset
      have h2 := Except.ok.inj hset
      simp only [Frechet.create] at hf
      by_cases ha : d.alpha_ > 0
      · rw [if_neg (not_not_intro ha), if_neg (not_not_intro hv)] at hf
        have h3 := Except.ok.inj hf
        subst h2; subst h3
        refine ⟨rfl, rfl, rfl, ?_⟩
        by_cases h1 : d.alpha_ ≤ 1 <;>
          simp [Frechet.getMean, Frechet.computeMean, Frechet.computeRange, h1, Except.map]
      · rw [if_pos ha] at hf
        exact absurd hf (by simp)
    · rw [if_pos hv] at hset
      exact absurd hset (by simp)
  · -- Frechet.setGamma
    intro d f v d2 hset hne hf
    simp only [Frechet.setGamma] at hset
    rw [if_pos hne] at hset
    have h2 := Except.ok.inj hset
    simp only [Frechet.create] at hf
    by_cases ha : d.alpha_ > 0
    · by_cases hb : d.beta_ > 0
      · rw [if_neg (not_not_intro ha), if_neg (not_not_intro hb)] at hf
        have h3 := Except.ok.inj hf
        subst h2; subst h3
        refine ⟨rfl, rfl, rfl, ?_⟩
        by_cases h1 : d.alpha_ ≤ 1 <;>
          simp [Frechet.getMean, Frechet.computeMean, Frechet.computeRange, h1, Except.map]
      · rw [if_neg (not_not_intro ha), if_pos hb] at hf
        exact absurd hf (by simp)
    · rw [if_pos ha] at hf
      exact absurd hf (by simp)
  · -- Frechet.setParameter
    intro d f a b c d2 hset hf
    simp only [Frechet.setParameter, List.getD_cons_zero, List.getD_cons_succ] at hset
    rw [if_neg (by norm_num), hf] at hset
    simp only [Except.map, Except.ok.injEq] at hset
    subst hset
    simp only [Frechet.create] at hf
    by_cases ha : a > 0
    · by_cases hb : b > 0
      · rw [if_neg (not_not_intro ha), if_neg (not_not_intro hb)] at hf
        have h3 := Except.ok.inj hf
        subst h3
        refine ⟨rfl, rfl, rfl, ?_⟩
        by_cases h1 : a ≤ 1 <;>
          simp [Frechet.getMean, Frechet.computeMean, Frechet.computeRange, h1, Except.map]
      · rw [if_neg (not_not_intro ha), if_pos hb] at hf
        exact absurd hf (by simp)
    · rw [if_pos ha] at hf
      exact absurd hf (by simp)
  · -- GeneralizedPareto.setSigma
    intro d f v d2 hset hne hf
    simp only [GeneralizedPareto.setSigma] at hset
    by_cases hv : v > 0
    · rw [if_neg (not_not_intro hv), if_pos hne] at hset
      have h2 := Except.ok.inj hset
      simp only [GeneralizedPareto.create, GeneralizedPareto.setSigma] at hf
      rw [if_neg (not_not_intro hv), if_pos (ne_of_gt hv)] at hf
      have h3 := Except.ok.inj hf
      subst h2; subst h3
      refine ⟨rfl, rfl, rfl, ?_⟩
      by_cases h1 : (1:ℝ) ≤ d.xi_ <;>
        simp [GeneralizedPareto.getMean, GeneralizedPareto.computeMean,
          GeneralizedPareto.computeRange, h1, Except.map]
    · rw [if_pos hv] at hset
      exact absurd hset (by simp)
  · -- GeneralizedPareto.setXi
    intro d f v d2 hset hne hs hf
    simp only [GeneralizedPareto.setXi] at hset
    rw [if_pos hne] at hset
    have h2 := Except.ok.inj hset
    simp only [GeneralizedPareto.create, GeneralizedPareto.setSigma] at hf
    rw [if_neg (not_not_intro hs), if_pos (ne_of_gt hs)] at hf
    have h3 := Except.ok.inj hf
    subst h2; subst h3
    refine ⟨rfl, rfl, rfl, ?_⟩
    by_cases h1 : (1:ℝ) ≤ v <;>
      simp [GeneralizedPareto.getMean, GeneralizedPareto.computeMean,
        GeneralizedPareto.computeRange, h1, Except.map]
  · -- GeneralizedPareto.setParameter
    intro d f s x d2 hset hf
    simp only [GeneralizedPareto.setParameter, List.getD_cons_zero, List.getD_cons_succ] at hset
    rw [if_neg (by norm_num), hf] at hset
    simp only [Except.map, Except.ok.injEq] at hset
    subst hset
    simp only [GeneralizedPareto.create, GeneralizedPareto.setSigma] at hf
    by_cases hs : s > 0
    · rw [if_neg (not_not_intro hs), if_pos (ne_of_gt hs)] at hf
      have h3 := Except.ok.inj hf
      subst h3
      refine ⟨rfl, rfl, rfl, ?_⟩
      by_cases h1 : (1:ℝ) ≤ x <;>
        simp [GeneralizedPareto.getMean, GeneralizedPareto.computeMean,
          GeneralizedPareto.computeRange, h1, Except.map]
    · rw [if_pos hs] at hf
      exact absurd hf (by simp)
  · -- Arcsine.setA
    intro d f v d2 hset hne hf
    simp only [Arcsine.setA] at hset
    by_cases hv : v ≥ d.b_
    · rw [if_pos hv] at hset
      exact absurd hset (by simp)
    · rw [if_neg hv, if_pos hne] at hset
      have h2 := Except.ok.inj hset
      simp only [Arcsine.create] at hf
      rw [if_neg (not_not_intro (lt_of_not_ge hv))] at hf
      have h3 := Except.ok.inj hf
      subst h2; subst h3
      exact ⟨rfl, rfl, rfl, rfl⟩
  · -- Arcsine.setB
    intro d f v d2 hset hne hf
    simp only [Arcsine.setB] at hset
    by_cases hv : d.a_ ≥ v
    · rw [if_pos hv] at hset
      exact absurd hset (by simp)
    · rw [if_neg hv, if_pos hne] at hset
      have h2 := Except.ok.inj hset
      simp only [Arcsine.create] at hf
      rw [if_neg (not_not_intro (lt_of_not_ge hv))] at hf
      have h3 := Except.ok.inj hf
      subst h2; subst h3
      exact ⟨rfl, rfl, rfl, rfl⟩
  · -- Arcsine.setParameter
    intro d f a b d2 hset hf
    simp only [Arcsine.setParameter, List.getD_cons_zero, List.getD_cons_succ] at hset
    rw [if_neg (by norm_num), hf] at hset
    simp only [Except.map, Except.ok.injEq] at hset
    subst hset
    simp only [Arcsine.create] at hf
    by_cases hab : a < b
    · rw [if_neg (not_not_intro hab)] at hf
      have h3 := Except.ok.inj hf
      subst h3
      exact ⟨rfl, rfl, rfl, rfl⟩
    · rw [if_pos hab] at hf
      exact absurd hf (by simp)

/-- Witness for the cache-invalidation theorem: an Arcsine with both cache
flags set and a stale cached mean of 99 moves its lower bound from -1 to -2
through setA; the result has both flags cleared, the freshly recomputed range
[-2, 1], and its mean() equals the one of a freshly constructed Arcsine(-2, 1)
rather than the stale cache. -/
theorem setters_invalidate_caches_witness :
    ({ a_ := -2, b_ := 1, weight_ := 7, mean_ := [99], isAlreadyComputedMean_ := false,
       covariance_ := 0, isAlreadyComputedCovariance_ := false,
       range_ := { lowerBound := [-2], upperBound := [1]
                   finiteLowerBound := [true], finiteUpperBound := [true] } } : Arcsine).isAlreadyComputedMean_ = false ∧
    ({ a_ := -2, b_ := 1, weight_ := 7, mean_ := [99], isAlreadyComputedMean_ := false,
       covariance_ := 0, isAlreadyComputedCovariance_ := false,
       range_ := { lowerBound := [-2], upperBound := [1]
                   finiteLowerBound := [true], finiteUpperBound := [true] } } : Arcsine).isAlreadyComputedCovariance_ = false ∧
    ({ a_ := -2, b_ := 1, weight_ := 7, mean_ := [99], isAlreadyComputedMean_ := false,
       covariance_ := 0, isAlreadyComputedCovariance_ := false,
       range_ := { lowerBound := [-2], upperBound := [1]
                   finiteLowerBound := [true], finiteUpperBound := [true] } } : Arcsine).range_ =
      ({ a_ := -2, b_ := 1, weight_ := 1, mean_ := [0], isAlreadyComputedMean_ := false,
         covariance_ := 0, isAlreadyComputedCovariance_ := false,
         range_ := { lowerBound := [-2], upperBound := [1]
                     finiteLowerBound := [true], finiteUpperBound := [true] } } : Arcsine).range_ ∧
    (Arcsine.getMean
        { a_ := -2, b_ := 1, weight_ := 7, mean_ := [99], isAlreadyComputedMean_ := false,
          covariance_ := 0, isAlreadyComputedCovariance_ := false,
          range_ := { lowerBound := [-2], upperBound := [1]
                      finiteLowerBound := [true], finiteUpperBound := [true] } }).map Prod.fst =
      (Arcsine.getMean
        { a_ := -2, b_ := 1, weight_ := 1, mean_ := [0], isAlreadyComputedMean_ := false,
          covariance_ := 0, isAlreadyComputedCovariance_ := false,
          range_ := { lowerBound := [-2], upperBound := [1]
                      finiteLowerBound := [true], finiteUpperBound := [true] } }).map Prod.fst :=
  setters_invalidate_caches.2.2.2.2.2.2.2.1
    { a_ := -1, b_ := 1, weight_ := 7, mean_ := [99], isAlreadyComputedMean_ := true,
      covariance_ := 0, isAlreadyComputedCovariance_ := true,
      range_ := { lowerBound := [-1], upperBound := [1]
                  finiteLowerBound := [true], finiteUpperBound := [true] } }
    _ (-2) _
    (by norm_num [Arcsine.setA, Arcsine.computeRange])
    (by norm_num)
    (by norm_num [Arcsine.create, Arcsine.computeRange])

/-- Claim C4 (counterexample): for GeneralizedPareto with sigma = 1, xi = 1
and p = 1/(10^9 + 1), the analytic quantile is exactly 10^(-9), but the CDF
evaluation at that point takes the small-argument Taylor branch
(sqrt(xi)*z = 10^(-9) < 10^(-8)) and returns
1 - exp(-10^(-9)) * (1 + 10^(-18)/2), which is strictly below p, so
cumulative(quantile(p)) is not exactly p in real arithmetic. -/
theorem gpd_quantile_roundtrip_not_exact :
    (GeneralizedPareto.create 1 1).bind
        (fun d => d.computeCDF [d.computeScalarQuantile (1 / (10 ^ 9 + 1)) false]) ≠
      .ok (1 / (10 ^ 9 + 1)) := by
  have hc : GeneralizedPareto.create 1 1 = .ok (GeneralizedPareto.computeRange
      { sigma_ := 1, xi_ := 1, weight_ := 1, mean_ := [0], isAlreadyComputedMean_ := false,
        covariance_ := 0, isAlreadyComputedCovariance_ := false,
        range_ := { lowerBound := [0], upperBound := [0]
                    finiteLowerBound := [true], finiteUpperBound := [true] } }) := by
    norm_num [GeneralizedPareto.create, GeneralizedPareto.setSigma]
  rw [hc]
  simp only [Except.bind]
  have hquant : (GeneralizedPareto.computeRange
      { sigma_ := 1, xi_ := 1, weight_ := 1, mean_ := [0], isAlreadyComputedMean_ := false,
        covariance_ := 0, isAlreadyComputedCovariance_ := false,
        range_ := { lowerBound := [0], upperBound := [0]
                    finiteLowerBound := [true], finiteUpperBound := [true] } }).computeScalarQuantile
      (1 / (10 ^ 9 + 1)) false = 1 / 10 ^ 9 := by
    simp only [GeneralizedPareto.computeScalarQuantile, GeneralizedPareto.computeRange,
      log1p, expm1]
    norm_num
    rw [Real.exp_neg, Real.exp_log (by positivity)]
    norm_num
  rw [hquant]
  have hcdf : (GeneralizedPareto.computeRange
      { sigma_ := 1, xi_ := 1, weight_ := 1, mean_ := [0], isAlreadyComputedMean_ := false,
        covariance_ := 0, isAlreadyComputedCovariance_ := false,
        range_ := { lowerBound := [0], upperBound := [0]
                    finiteLowerBound := [true], finiteUpperBound := [true] } }).computeCDF
      [1 / 10 ^ 9] =
      .ok (1 - Real.exp (-(1 / 10 ^ 9)) * (1 + 1 / (2 * 10 ^ 18))) := by
    simp only [GeneralizedPareto.computeCDF, GeneralizedPareto.computeRange, expm1]
    norm_num [Real.sqrt_one]
    rw [abs_of_pos (show (0:ℝ) < 1 / 1000000000 by norm_num)]
    norm_num
    ring
  rw [hcdf]
  simp only [ne_eq, Except.ok.injEq]
  intro hEq
  have hb := Real.exp_bound' (x := (1 / 10 ^ 9 : ℝ)) (by norm_num) (by norm_num)
    (n := 3) (by norm_num)
  have hc3 : Real.exp (1 / 10 ^ 9 : ℝ) ≤
      1 + 1 / 10 ^ 9 + 1 / (2 * 10 ^ 18) + 2 / (9 * 10 ^ 27) := by
    refine le_trans hb ?_
    norm_num [Finset.sum_range_succ, Nat.factorial]
  have hEpos := Real.exp_pos (1 / 10 ^ 9 : ℝ)
  have hIpos : 0 < (Real.exp (1 / 10 ^ 9 : ℝ))⁻¹ := inv_pos.mpr hEpos
  have hmul : Real.exp (1 / 10 ^ 9 : ℝ) * (Real.exp (1 / 10 ^ 9 : ℝ))⁻¹ = 1 :=
    mul_inv_cancel₀ (ne_of_gt hEpos)
  rw [Real.exp_neg] at hEq
  nlinarith [mul_nonneg (sub_nonneg.mpr hc3) hIpos.le, hmul, hIpos, hEq]

/-- Claim C4 (amended): cumulative(quantile(p)) equals p exactly, in real
arithmetic, for every p in (0,1): for Arcsine (a < b) and Frechet (alpha,
beta > 0) always; for GeneralizedPareto (sigma > 0) when xi = 0, and when
xi is nonzero whenever the CDF evaluation does not take the small-argument
Taylor branch (0 <= xi and abs(sqrt(xi) * z) < 1e-8, z the quantile over
sigma); inside that branch the composition differs from p, as the
counterexample shows. -/
theorem quantile_roundtrip_exact_cases :
    (∀ (d : Arcsine) (p : ℝ), d.a_ < d.b_ → 0 < p → p < 1 →
        d.computeCDF [d.computeScalarQuantile p false] = .ok p) ∧
    (∀ (d : Frechet) (p : ℝ), 0 < d.alpha_ → 0 < d.beta_ → 0 < p → p < 1 →
        d.computeCDF [d.computeScalarQuantile p false] = .ok p) ∧
    (∀ (d : GeneralizedPareto) (p : ℝ), 0 < d.sigma_ → d.xi_ = 0 → 0 < p → p < 1 →
        d.computeCDF [d.computeScalarQuantile p false] = .ok p) ∧
    (∀ (d : GeneralizedPareto) (p : ℝ), 0 < d.sigma_ → d.xi_ ≠ 0 → 0 < p → p < 1 →
        ¬ (0 ≤ d.xi_ ∧
            |Real.sqrt d.xi_ * (d.computeScalarQuantile p false / d.sigma_)| < 1e-8) →
        d.computeCDF [d.computeScalarQuantile p false] = .ok p) := by
  refine ⟨?_, ?_, ?_, ?_⟩
  · -- Arcsine: asin inverts sin on (-pi/2, pi/2)
    intro d p hab hp0 hp1
    have hπ := Real.pi_pos
    have hba : (0:ℝ) < d.b_ - d.a_ := sub_pos.mpr hab
    have hθl : -(Real.pi / 2) < Real.pi * (p - 0.5) := by nlinarith
    have hθu : Real.pi * (p - 0.5) < Real.pi / 2 := by nlinarith
    have hsl : -1 < Real.sin (Real.pi * (p - 0.5)) := by
      have h := Real.strictMonoOn_sin (Set.mem_Icc.mpr ⟨le_refl _, by linarith⟩)
        (Set.mem_Icc.mpr ⟨hθl.le, hθu.le⟩) hθl
      rwa [Real.sin_neg, Real.sin_pi_div_two] at h
    have hsu : Real.sin (Real.pi * (p - 0.5)) < 1 := by
      have h := Real.strictMonoOn_sin (Set.mem_Icc.mpr ⟨hθl.le, hθu.le⟩)
        (Set.mem_Icc.mpr ⟨by linarith, le_refl _⟩) hθu
      rwa [Real.sin_pi_div_two] at h
    have hq : d.computeScalarQuantile p false =
        0.5 * (d.b_ - d.a_) * Real.sin (Real.pi * (p - 0.5)) + 0.5 * (d.a_ + d.b_) := by
      simp [Arcsine.computeScalarQuantile]
    rw [hq]
    simp only [Arcsine.computeCDF, List.headI]
    rw [if_neg (by norm_num)]
    rw [if_neg (not_le.mpr (by nlinarith)), if_neg (not_le.mpr (by nlinarith))]
    have harg : (0.5 * (d.b_ - d.a_) * Real.sin (Real.pi * (p - 0.5)) + 0.5 * (d.a_ + d.b_)
        - 0.5 * (d.a_ + d.b_)) / (0.5 * (d.b_ - d.a_)) = Real.sin (Real.pi * (p - 0.5)) := by
      field_simp
    rw [harg, Real.arcsin_sin hθl.le hθu.le]
    have hval : (0.5 : ℝ) + Real.pi * (p - 0.5) / Real.pi = p := by
      field_simp
    rw [hval]
  · -- Frechet: the power -alpha undoes the power -1/alpha
    intro d p ha hb hp0 hp1
    have hα0 : d.alpha_ ≠ 0 := ne_of_gt ha
    have hβ0 : d.beta_ ≠ 0 := ne_of_gt hb
    have hlp : 0 < -Real.log p := neg_pos.mpr (Real.log_neg hp0 hp1)
    have ht : 0 < (-Real.log p) ^ (-1 / d.alpha_) := Real.rpow_pos_of_pos hlp _
    have hq : d.computeScalarQuantile p false =
        d.gamma_ + d.beta_ * (-Real.log p) ^ (-1 / d.alpha_) := by
      simp [Frechet.computeScalarQuantile]
    rw [hq]
    simp only [Frechet.computeCDF, List.headI]
    rw [if_neg (by norm_num)]
    rw [if_neg (not_le.mpr (by nlinarith))]
    have hx : (d.gamma_ + d.beta_ * (-Real.log p) ^ (-1 / d.alpha_) - d.gamma_) / d.beta_
        = (-Real.log p) ^ (-1 / d.alpha_) := by
      field_simp
    rw [hx]
    have hpow : ((-Real.log p) ^ (-1 / d.alpha_)) ^ (-d.alpha_) = -Real.log p := by
      rw [← Real.rpow_mul hlp.le]
      rw [show (-1 / d.alpha_) * -d.alpha_ = 1 by field_simp]
      exact Real.rpow_one _
    rw [hpow, neg_neg, Real.exp_log hp0]
  · -- GeneralizedPareto with xi = 0: the exponential case
    intro d p hs hx0 hp0 hp1
    have hσ0 : d.sigma_ ≠ 0 := ne_of_gt hs
    have h1p : (0:ℝ) < 1 + -p := by linarith
    have hlog : Real.log (1 + -p) < 0 := Real.log_neg (by linarith) (by linarith)
    have hq : d.computeScalarQuantile p false = -d.sigma_ * Real.log (1 + -p) := by
      simp [GeneralizedPareto.computeScalarQuantile, log1p, hx0]
    rw [hq]
    simp only [GeneralizedPareto.computeCDF, List.headI, expm1]
    rw [if_neg (by norm_num)]
    have hz : -d.sigma_ * Real.log (1 + -p) / d.sigma_ = -Real.log (1 + -p) := by
      field_simp
      ring
    rw [hz]
    rw [if_neg (not_le.mpr (by linarith))]
    rw [if_pos ⟨le_of_eq hx0.symm,
      by rw [hx0, Real.sqrt_zero, zero_mul, abs_zero]; norm_num⟩]
    rw [hx0]
    have hval : -(Real.exp (- -Real.log (1 + -p)) - 1)
        - 0.5 * 0 * -Real.log (1 + -p) * -Real.log (1 + -p)
          * Real.exp (- -Real.log (1 + -p)) = p := by
      rw [neg_neg, Real.exp_log h1p]
      ring
    rw [hval]
  · -- GeneralizedPareto with xi nonzero, outside the Taylor branch
    intro d p hs hxne hp0 hp1 hguard
    have hσ0 : d.sigma_ ≠ 0 := ne_of_gt hs
    have h1p : (0:ℝ) < 1 + -p := by linarith
    have hlog : Real.log (1 + -p) < 0 := Real.log_neg (by linarith) (by linarith)
    have hq : d.computeScalarQuantile p false =
        d.sigma_ * (Real.exp (-d.xi_ * Real.log (1 + -p)) - 1) / d.xi_ := by
      simp [GeneralizedPareto.computeScalarQuantile, log1p, expm1, hxne]
    have hzq : d.sigma_ * (Real.exp (-d.xi_ * Real.log (1 + -p)) - 1) / d.xi_ / d.sigma_
        = (Real.exp (-d.xi_ * Real.log (1 + -p)) - 1) / d.xi_ := by
      field_simp
      ring
    have hEgt : -1 < Real.exp (-d.xi_ * Real.log (1 + -p)) - 1 := by
      have := Real.exp_pos (-d.xi_ * Real.log (1 + -p))
      linarith
    have hzpos : 0 < (Real.exp (-d.xi_ * Real.log (1 + -p)) - 1) / d.xi_ := by
      rcases lt_or_gt_of_ne hxne with hneg | hpos
      · refine div_pos_of_neg_of_neg ?_ hneg
        have harg : -d.xi_ * Real.log (1 + -p) < 0 := by nlinarith
        have h2 := Real.exp_lt_exp.mpr harg
        rw [Real.exp_zero] at h2
        linarith
      · refine div_pos ?_ hpos
        have harg : 0 < -d.xi_ * Real.log (1 + -p) := by nlinarith
        have h2 := Real.exp_lt_exp.mpr harg
        rw [Real.exp_zero] at h2
        linarith
    have hguard2 : ¬ (0 ≤ d.xi_ ∧
        |Real.sqrt d.xi_ * ((Real.exp (-d.xi_ * Real.log (1 + -p)) - 1) / d.xi_)| < 1e-8) := by
      intro h
      apply hguard
      rw [hq, hzq]
      exact h
    rw [hq]
    simp only [GeneralizedPareto.computeCDF, List.headI, expm1, log1p]
    rw [if_neg (by norm_num)]
    rw [hzq]
    rw [if_neg (not_le.mpr hzpos)]
    rw [if_neg hguard2]
    have hthird : ¬ (d.xi_ < 0 ∧
        (Real.exp (-d.xi_ * Real.log (1 + -p)) - 1) / d.xi_ > -1 / d.xi_) := by
      rintro ⟨hneg, hgt⟩
      have := div_lt_div_of_neg_of_lt hneg hEgt
      linarith
    rw [if_neg hthird]
    have hξz : d.xi_ * ((Real.exp (-d.xi_ * Real.log (1 + -p)) - 1) / d.xi_)
        = Real.exp (-d.xi_ * Real.log (1 + -p)) - 1 := by
      field_simp
    rw [hξz]
    have hlog2 : Real.log (1 + (Real.exp (-d.xi_ * Real.log (1 + -p)) - 1))
        = -d.xi_ * Real.log (1 + -p) := by
      rw [show (1 : ℝ) + (Real.exp (-d.xi_ * Real.log (1 + -p)) - 1)
          = Real.exp (-d.xi_ * Real.log (1 + -p)) by ring]
      exact Real.log_exp _
    rw [hlog2]
    have hdiv : -(-d.xi_ * Real.log (1 + -p)) / d.xi_ = Real.log (1 + -p) := by
      field_simp
    rw [hdiv]
    rw [Real.exp_log h1p]
    have hval : -((1 : ℝ) + -p - 1) = p := by ring
    rw [hval]

/-- Witness for the exact-roundtrip theorem: the Arcsine part applied to the
distribution with a = -1, b = 1 at p = 1/2. -/
theorem quantile_roundtrip_exact_cases_witness :
    Arcsine.computeCDF
      { a_ := -1, b_ := 1, weight_ := 1, mean_ := [0], isAlreadyComputedMean_ := false,
        covariance_ := 0, isAlreadyComputedCovariance_ := false,
        range_ := { lowerBound := [-1], upperBound := [1]
                    finiteLowerBound := [true], finiteUpperBound := [true] } }
      [Arcsine.computeScalarQuantile
        { a_ := -1, b_ := 1, weight_ := 1, mean_ := [0], isAlreadyComputedMean_ := false,
          covariance_ := 0, isAlreadyComputedCovariance_ := false,
          range_ := { lowerBound := [-1], upperBound := [1]
                      finiteLowerBound := [true], finiteUpperBound := [true] } }
        (1 / 2) false] = .ok (1 / 2) :=
  quantile_roundtrip_exact_cases.1 _ (1 / 2) (by norm_num) (by norm_num) (by norm_num)

end OTVerify
